import Mathlib

/-!
Verification of the portfolio front-end behaviour layer (`Frontend/script.js`)
via a shallow embedding of its theme, menu, cursor, reveal-on-scroll and
initialization logic.

Browser model conventions used throughout:
* `Option String` models a DOM attribute / localStorage entry (`none` = absent,
  which JS reads as `null`).
* JS truthiness of a string (`s || d`, `if (s)`) is: `null` and `""` are falsy,
  every other string is truthy.
* `window.scrollY` is a non-negative integer number of pixels (the code only
  ever stores and restores integral offsets).
* Setting `body.style.position = "fixed"` collapses the scrollable document to
  the viewport, which clamps `window.scrollY` to `0`; un-fixing does not
  restore the old offset by itself.  This is exactly the behaviour the code
  compensates for with `top = -scrollY px` on open and `scrollTo` on close.
-/

/-- JS string-or-default: models `x || 'light'` where `x : Option String` is a
`localStorage.getItem` / `getAttribute` result (`null` and `""` are falsy). -/
def jsOrElse (x : Option String) (d : String) : String :=
  match x with
  | none => d
  | some s => if s = "" then d else s

/-- DOM + storage state relevant to the theme subsystem. -/
structure ThemeDom where
  /-- `document.documentElement.getAttribute('data-theme')`; `none` = absent. -/
  dataTheme : Option String
  /-- `localStorage.getItem('theme')`; `none` = absent. -/
  stored : Option String
  /-- whether a `.theme-icon` element exists in the document. -/
  iconPresent : Bool
  /-- `textContent` of the `.theme-icon` element (meaningful when present). -/
  iconText : String
  deriving DecidableEq, Repr

/-- Glyph written for the dark theme (`'☀️'`). -/
def sunGlyph : String := "☀️"

/-- Glyph written for the light/default theme (`'🌙'`). -/
def moonGlyph : String := "🌙"

/-- `ThemeManager.updateIcon(theme)` (script.js lines 63-68): silently skipped
when the icon element is absent. -/
def updateIcon (theme : String) (s : ThemeDom) : ThemeDom :=
  if s.iconPresent then
    { s with iconText := if theme = "dark" then sunGlyph else moonGlyph }
  else s

/-- `ThemeManager.init()` (script.js lines 24-29): `savedTheme =
localStorage.getItem('theme') || 'light'`, then `setTheme` and `updateIcon`.
(`document.documentElement` always exists, so the null guard never fires.) -/
def themeInit (s : ThemeDom) : ThemeDom :=
  let savedTheme := jsOrElse s.stored "light"
  updateIcon savedTheme { s with dataTheme := some savedTheme }

/-- `ThemeManager.toggle()` (script.js lines 34-41): complement of the
currently applied attribute (`getAttribute('data-theme') || 'light'`), then
`setTheme`, `saveTheme`, `updateIcon`. -/
def themeToggle (s : ThemeDom) : ThemeDom :=
  let currentTheme := jsOrElse s.dataTheme "light"
  let newTheme := if currentTheme = "dark" then "light" else "dark"
  updateIcon newTheme { s with dataTheme := some newTheme, stored := some newTheme }

/-- `window.toggleTheme` (script.js lines 209-229): the standalone duplicate of
`ThemeManager.toggle`; same attribute read, complement, attribute and storage
writes, and guarded icon update. -/
def toggleTheme (s : ThemeDom) : ThemeDom :=
  let currentTheme := jsOrElse s.dataTheme "light"
  let newTheme := if currentTheme = "dark" then "light" else "dark"
  updateIcon newTheme { s with dataTheme := some newTheme, stored := some newTheme }

/-- `initializeTheme()` (script.js lines 297-306): the standalone duplicate of
`ThemeManager.init`. -/
def initializeTheme (s : ThemeDom) : ThemeDom :=
  let savedTheme := jsOrElse s.stored "light"
  updateIcon savedTheme { s with dataTheme := some savedTheme }

/-- Default page-load theme state assumed by the spec for toggle sequences:
applied attribute `light`, nothing persisted. -/
def themeStart (b : Bool) (t : String) : ThemeDom :=
  { dataTheme := some "light", stored := none, iconPresent := b, iconText := t }

/-- Digit-accumulating fold used by the embedding of JS `parseInt` on the
decimal digit prefix of a string. -/
def digitsVal (cs : List Char) : Nat :=
  cs.foldl (fun a c => 10 * a + (c.toNat - 48)) 0

/-- JS `parseInt(s)` restricted to base 10 (as the code calls it): optional
sign, then the longest decimal-digit prefix; `none` models `NaN` (no digits). -/
def jsParseIntChars (cs : List Char) : Option Int :=
  let (sign, rest) : Int × List Char :=
    match cs with
    | '-' :: r => (-1, r)
    | '+' :: r => (1, r)
    | r => (1, r)
  let ds := rest.takeWhile Char.isDigit
  if ds.isEmpty then none else some (sign * (digitsVal ds : Nat))

/-- JS `parseInt` on a string. -/
def jsParseInt (s : String) : Option Int :=
  jsParseIntChars s.data

/-- Fuel-driven little-endian base-10 digit list (structural recursion so
that concrete states evaluate inside the kernel). -/
def digitsRecAux : Nat → Nat → List Nat
  | _, 0 => []
  | 0, _ + 1 => []
  | f + 1, n + 1 => ((n + 1) % 10) :: digitsRecAux f ((n + 1) / 10)

/-- Little-endian base-10 digits of `n` (agrees with `Nat.digits 10`). -/
def decDigits (n : Nat) : List Nat :=
  digitsRecAux n n

theorem digitsRecAux_eq_digits : ∀ (f n : Nat), n ≤ f → digitsRecAux f n = Nat.digits 10 n
  | _, 0, _ => by simp [digitsRecAux]
  | 0, n + 1, h => absurd h (by omega)
  | f + 1, n + 1, h => by
      have hdiv : (n + 1) / 10 ≤ f := by
        have := Nat.div_lt_self (Nat.succ_pos n) (by norm_num : 1 < 10)
        omega
      rw [digitsRecAux, digitsRecAux_eq_digits f ((n + 1) / 10) hdiv,
        Nat.digits_def' (by norm_num : 1 < 10) (Nat.succ_pos n)]

theorem decDigits_eq_digits (n : Nat) : decDigits n = Nat.digits 10 n :=
  digitsRecAux_eq_digits n n le_rfl

/-- Decimal representation of a non-negative integer, as JS stringifies
`window.scrollY` inside the template literal `-${scrollY}px`. -/
def decRepr (n : Nat) : String :=
  if n = 0 then "0" else (((decDigits n).reverse).map Nat.digitChar).asString

/-- The string written to `body.style.top` on menu open: `-${scrollY}px`. -/
def topFor (n : Nat) : String :=
  "-" ++ decRepr n ++ "px"

/-- DOM, style and viewport state relevant to the menu subsystem. -/
structure MenuDom where
  /-- whether a `.menu-overlay` element exists. -/
  overlayPresent : Bool
  /-- whether a `.hamburger-icon` element exists. -/
  iconPresent : Bool
  /-- `overlay.classList.contains('open')` (meaningful when present). -/
  overlayOpen : Bool
  /-- `icon.classList.contains('open')` (meaningful when present). -/
  iconOpen : Bool
  /-- `document.body.classList.contains('menu-open')`. -/
  bodyMenuOpen : Bool
  /-- `body.style.overflow`. -/
  overflow : String
  /-- `body.style.position`. -/
  position : String
  /-- `body.style.width`. -/
  width : String
  /-- `body.style.height`. -/
  height : String
  /-- `body.style.top` (`""` = unset). -/
  top : String
  /-- `window.scrollY`, in integral pixels. -/
  scrollY : Nat
  deriving DecidableEq, Repr

/-- Model of writing `body.style.position`: fixing the body collapses the
scrollable document to the viewport, clamping `window.scrollY` to `0`;
restoring a non-fixed position leaves the scroll offset where it is (the
browser does not restore it, which is why `close()` calls `scrollTo`). -/
def setBodyPosition (s : MenuDom) (v : String) : MenuDom :=
  { s with position := v, scrollY := if v = "fixed" then 0 else s.scrollY }

/-- `window.scrollTo(0, y)` with an integer `y`: negative targets clamp to 0
(the code only ever passes `parseInt(top) * -1`, a non-negative value on the
states it produces). -/
def scrollTo (s : MenuDom) (y : Int) : MenuDom :=
  { s with scrollY := y.toNat }

/-- `MenuManager.open()` (script.js lines 109-124): guarded on both elements;
records `window.scrollY` in `body.style.top`, adds the `open`/`menu-open`
classes, and locks scrolling by fixing the body. -/
def menuOpen (s : MenuDom) : MenuDom :=
  if !s.overlayPresent || !s.iconPresent then s
  else
    let sc := s.scrollY
    setBodyPosition
      { s with overlayOpen := true, iconOpen := true, bodyMenuOpen := true,
               overflow := "hidden", width := "100%", top := topFor sc }
      "fixed"

/-- `MenuManager.close()` (script.js lines 129-147): reads the recorded offset
from `body.style.top` first, removes the `open` classes (each guarded on its
element), clears the scroll-lock styles, and, when the recorded offset string
is non-empty (JS truthiness), scrolls to `parseInt(offset) * -1`. -/
def menuClose (s : MenuDom) : MenuDom :=
  let scrollYStr := s.top
  let s1 : MenuDom :=
    { s with overlayOpen := if s.overlayPresent then false else s.overlayOpen,
             iconOpen := if s.iconPresent then false else s.iconOpen,
             bodyMenuOpen := false,
             overflow := "", width := "", height := "", top := "" }
  let s2 := setBodyPosition s1 ""
  if scrollYStr = "" then s2
  else scrollTo s2 (((jsParseInt scrollYStr).getD 0) * -1)

/-- `MenuManager.toggle()` (script.js lines 91-104): guarded on both elements;
dispatches on `overlay.classList.contains('open')`. -/
def menuToggle (s : MenuDom) : MenuDom :=
  if !s.overlayPresent || !s.iconPresent then s
  else if s.overlayOpen then menuClose s else menuOpen s

/-- `window.toggleMenu` (script.js lines 231-268): the standalone duplicate.
Its close branch removes the classes and clears `overflow`, `position`,
`width`, `height` -- but neither clears `body.style.top` nor restores the
scroll offset.  Its open branch matches `MenuManager.open()`. -/
def toggleMenu (s : MenuDom) : MenuDom :=
  if !s.overlayPresent || !s.iconPresent then s
  else if s.overlayOpen then
    setBodyPosition
      { s with overlayOpen := false, iconOpen := false, bodyMenuOpen := false,
               overflow := "", width := "", height := "" }
      ""
  else
    let sc := s.scrollY
    setBodyPosition
      { s with overlayOpen := true, iconOpen := true, bodyMenuOpen := true,
               overflow := "hidden", width := "100%", top := topFor sc }
      "fixed"

/-- `window.handleMenuLink` (script.js lines 271-294): removes the classes
(each guarded), then reads the recorded offset, clears the styles, and
restores the scroll position exactly as `MenuManager.close()` does. -/
def handleMenuLink (s : MenuDom) : MenuDom :=
  let s0 : MenuDom :=
    { s with overlayOpen := if s.overlayPresent then false else s.overlayOpen,
             iconOpen := if s.iconPresent then false else s.iconOpen,
             bodyMenuOpen := false }
  let scrollYStr := s0.top
  let s1 : MenuDom := { s0 with overflow := "", width := "", height := "", top := "" }
  let s2 := setBodyPosition s1 ""
  if scrollYStr = "" then s2
  else scrollTo s2 (((jsParseInt scrollYStr).getD 0) * -1)
theorem digitChar_toNat_sub {d : Nat} (hd : d < 10) : (Nat.digitChar d).toNat - 48 = d := by
  interval_cases d <;> rfl

theorem digitChar_isDigit {d : Nat} (hd : d < 10) : (Nat.digitChar d).isDigit = true := by
  interval_cases d <;> rfl

theorem takeWhile_append_stop {p : Char → Bool} (l : List Char) (q : Char) (r : List Char)
    (hl : ∀ c ∈ l, p c = true) (hq : p q = false) :
    ((l ++ q :: r).takeWhile p) = l := by
  induction l with
  | nil => simp [List.takeWhile, hq]
  | cons a t ih =>
      have ha : p a = true := hl a (by simp)
      simp only [List.cons_append, List.takeWhile_cons, ha, if_true]
      rw [ih (fun c hc => hl c (by simp [hc]))]

theorem foldl_digits_aux (L : List Nat) (a : Nat) (hL : ∀ d ∈ L, d < 10) :
    ((L.reverse.map Nat.digitChar).foldl (fun a c => 10 * a + (c.toNat - 48)) a)
      = a * 10 ^ L.length + Nat.ofDigits 10 L := by
  induction L generalizing a with
  | nil => simp [Nat.ofDigits_nil]
  | cons d T ih =>
      have hd : d < 10 := hL d (by simp)
      have hT : ∀ x ∈ T, x < 10 := fun x hx => hL x (by simp [hx])
      simp only [List.reverse_cons, List.map_append, List.map_cons, List.map_nil,
        List.foldl_append, List.foldl_cons, List.foldl_nil]
      rw [ih a hT, digitChar_toNat_sub hd, Nat.ofDigits_cons]
      simp only [List.length_cons, pow_succ]
      ring

theorem decRepr_data (n : Nat) :
    (decRepr n).data = if n = 0 then ['0'] else ((Nat.digits 10 n).reverse).map Nat.digitChar := by
  unfold decRepr
  rw [decDigits_eq_digits]
  split <;> rfl

theorem decRepr_digits (n : Nat) : ∀ c ∈ (decRepr n).data, c.isDigit = true := by
  intro c hc
  rw [decRepr_data] at hc
  split at hc
  · simp at hc; subst hc; rfl
  · simp only [List.mem_map, List.mem_reverse] at hc
    obtain ⟨d, hd, rfl⟩ := hc
    exact digitChar_isDigit (Nat.digits_lt_base (by norm_num) hd)

theorem decRepr_ne_nil (n : Nat) : (decRepr n).data ≠ [] := by
  rw [decRepr_data]
  split
  · simp
  · simp only [ne_eq, List.map_eq_nil_iff, List.reverse_eq_nil_iff]
    exact Nat.digits_ne_nil_iff_ne_zero.mpr (by assumption)

theorem digitsVal_decRepr (n : Nat) : digitsVal (decRepr n).data = n := by
  rw [decRepr_data]
  split
  · subst n; rfl
  · unfold digitsVal
    rw [foldl_digits_aux _ 0 (fun d hd => Nat.digits_lt_base (by norm_num) hd)]
    simp [Nat.ofDigits_digits]

theorem topFor_data (n : Nat) : (topFor n).data = '-' :: ((decRepr n).data ++ ['p', 'x']) := by
  unfold topFor
  rw [String.data_append, String.data_append]
  rfl

theorem jsParseInt_topFor (n : Nat) : jsParseInt (topFor n) = some (-(n : Int)) := by
  unfold jsParseInt
  rw [topFor_data]
  unfold jsParseIntChars
  simp only
  rw [takeWhile_append_stop _ 'p' _ (decRepr_digits n) rfl]
  rw [if_neg (by simp [List.isEmpty_iff, decRepr_ne_nil n])]
  rw [digitsVal_decRepr]
  simp

theorem topFor_ne_empty (n : Nat) : topFor n ≠ "" := by
  intro h
  have h2 := congrArg String.data h
  rw [topFor_data] at h2
  simp at h2

/-- Restoring the recorded offset: `parseInt(top) * -1` fed to `scrollTo`
recovers exactly the offset that `open` recorded. -/
theorem scroll_restore (n : Nat) : (((jsParseInt (topFor n)).getD 0) * -1).toNat = n := by
  rw [jsParseInt_topFor]
  simp

/-- Nodes on the propagation path of the clicks claim C6 reasons about. -/
inductive ClickNode
  /-- a link (`.menu-links a`). -/
  | link
  /-- the `.menu-links` container. -/
  | linksContainer
  /-- the `.menu-overlay` element. -/
  | overlayNode
  deriving DecidableEq, Repr

/-- Target of a click event: the overlay backdrop itself, or a link inside the
`.menu-links` container. -/
inductive ClickTarget
  /-- `e.target` is the `.menu-overlay` element itself. -/
  | overlay
  /-- `e.target` is a link inside the `.menu-links` container. -/
  | menuLink
  deriving DecidableEq, Repr

/-- Bubbling path from the click target up through the overlay (capture-less
listeners as the code registers them). -/
def propagationPath : ClickTarget → List ClickNode
  | .overlay => [.overlayNode]
  | .menuLink => [.link, .linksContainer, .overlayNode]

/-- In-flight click event state: the DOM it mutates, the `stopPropagation`
and `preventDefault` flags, and how many of the overlay-registered (backdrop)
handlers have run. -/
structure EventState where
  /-- current menu DOM state. -/
  dom : MenuDom
  /-- `e.stopPropagation()` was called (stops later nodes, not later listeners
  on the same node). -/
  stopped : Bool
  /-- `e.preventDefault()` was called (cancels default link navigation). -/
  prevented : Bool
  /-- number of handlers registered on the `.menu-overlay` element that ran. -/
  overlayHandlerRuns : Nat
  deriving DecidableEq, Repr

/-- Click listeners attached by `initializeApp` at each node, in registration
order (script.js: `setupMenuButton` lines 337-348 and 360-367 runs before
`PortfolioApp.attachEventListeners` lines 193-203):
* on each menu link: `window.handleMenuLink` (no `preventDefault`);
* on `.menu-links`: `e.stopPropagation()`;
* on `.menu-overlay`: first the guarded `if (e.target === menuOverlay)
  window.toggleMenu(e)` handler, then the unconditional
  `() => this.menuManager.close()` handler. -/
def runNodeHandlers (tgt : ClickTarget) (n : ClickNode) (ev : EventState) : EventState :=
  match n with
  | .link => { ev with dom := handleMenuLink ev.dom }
  | .linksContainer => { ev with stopped := true }
  | .overlayNode =>
      let ev1 :=
        if tgt = ClickTarget.overlay then
          { ev with prevented := true, stopped := true, dom := toggleMenu ev.dom,
                    overlayHandlerRuns := ev.overlayHandlerRuns + 1 }
        else { ev with overlayHandlerRuns := ev.overlayHandlerRuns + 1 }
      { ev1 with dom := menuClose ev1.dom, overlayHandlerRuns := ev1.overlayHandlerRuns + 1 }

/-- Full dispatch of a click along the bubbling path: each node's listeners
run unless propagation was stopped at an earlier node. -/
def dispatchClick (tgt : ClickTarget) (s : MenuDom) : EventState :=
  (propagationPath tgt).foldl
    (fun ev n => if ev.stopped then ev else runNodeHandlers tgt n ev)
    { dom := s, stopped := false, prevented := false, overlayHandlerRuns := 0 }

/-- Tracked pointer and follower coordinates of `LuxuryCursor` (script.js
lines 379-384), idealized over exact rationals. -/
structure CursorState where
  /-- latest pointer x (`this.mouseX`). -/
  mouseX : ℚ
  /-- latest pointer y (`this.mouseY`). -/
  mouseY : ℚ
  /-- outer-ring x (`this.cursorX`). -/
  cursorX : ℚ
  /-- outer-ring y (`this.cursorY`). -/
  cursorY : ℚ
  /-- inner-dot x (`this.dotX`). -/
  dotX : ℚ
  /-- inner-dot y (`this.dotY`). -/
  dotY : ℚ
  deriving DecidableEq, Repr

/-- Outer-ring easing factor (script.js line 445: `const cursorLerp = 0.12`). -/
def cursorLerp : ℚ := 12 / 100

/-- Inner-dot easing factor (script.js line 452: `const dotLerp = 0.35`). -/
def dotLerp : ℚ := 35 / 100

/-- One linear-interpolation update `pos += (target - pos) * l`. -/
def lerpStep (pos target l : ℚ) : ℚ :=
  pos + (target - pos) * l

/-- One tick of `LuxuryCursor.animate()` (script.js lines 443-463): both
followers move toward the current pointer by their respective factors; the
pointer coordinates are only changed by mouse-move events, so a tick leaves
them unchanged (stationary-pointer model). -/
def animate (s : CursorState) : CursorState :=
  { s with
    cursorX := lerpStep s.cursorX s.mouseX cursorLerp,
    cursorY := lerpStep s.cursorY s.mouseY cursorLerp,
    dotX := lerpStep s.dotX s.mouseX dotLerp,
    dotY := lerpStep s.dotY s.mouseY dotLerp }

/-- State of the reveal-on-scroll subsystem: which element ids carry the
`animate` class, which are currently observed, and whether an
`IntersectionObserver` was constructed. -/
structure RevealSt where
  /-- elements whose `classList` contains `animate`. -/
  animated : List Nat
  /-- elements currently observed by the observer. -/
  observed : List Nat
  /-- whether `new IntersectionObserver(...)` ran. -/
  observerCreated : Bool
  deriving DecidableEq, Repr

/-- `classList.add`: set-semantics insertion. -/
def addClass (e : Nat) (l : List Nat) : List Nat :=
  if e ∈ l then l else e :: l

/-- Events the reveal subsystem reacts to after `init`. -/
inductive RevealOp
  /-- one entry of an observer callback batch (script.js lines 497-503):
  an observed element reported with its `isIntersecting` flag. -/
  | callbackEntry (e : Nat) (isIntersecting : Bool)
  /-- one staggered hero timeout firing (script.js lines 515-521). -/
  | heroTimeout (e : Nat)
  deriving DecidableEq, Repr

/-- Transition of one reveal event.  An intersecting entry adds the `animate`
class and unobserves the element; a non-intersecting entry does nothing; a
hero timeout adds the `animate` class.  No operation ever removes the class
(`classList.remove('animate')` appears nowhere in the source). -/
def revealStep (s : RevealSt) : RevealOp → RevealSt
  | .callbackEntry e isIntersecting =>
      if isIntersecting then
        { s with animated := addClass e s.animated,
                 observed := s.observed.filter (fun x => x ≠ e) }
      else s
  | .heroTimeout e => { s with animated := addClass e s.animated }

/-- Run a sequence of reveal events. -/
def revealRun (s : RevealSt) (ops : List RevealOp) : RevealSt :=
  ops.foldl revealStep s

/-- `ScrollAnimationManager.init()` (script.js lines 485-523), parameterized by
whether `IntersectionObserver` exists and by the list of `.scroll-animate`
elements.  Unsupported: every tagged element gets the `animate` class at once
and the method returns -- no observer, no observation.  Supported: an observer
is created and every tagged element is observed (hero timeouts are scheduled,
not run, inside `init`). -/
def scrollAnimInit (supported : Bool) (tagged : List Nat) (s : RevealSt) : RevealSt :=
  if !supported then
    { s with animated := tagged.foldl (fun l e => addClass e l) s.animated }
  else
    { s with observerCreated := true,
             observed := tagged.foldl (fun l e => addClass e l) s.observed }

/-- Application-level state for the initializer: the theme DOM, the number of
click/keydown listeners registered at each wiring point, and the
`window.portfolioApp` / `window.luxuryCursor` / `window.scrollAnimationManager`
guard flags (modelled together with how many times each constructor ran). -/
structure AppState where
  /-- theme-related DOM and storage. -/
  theme : ThemeDom
  /-- click listeners on the current `#theme-toggle` node. -/
  themeButtonListeners : Nat
  /-- click listeners on `.hamburger-icon`. -/
  hamburgerListeners : Nat
  /-- click listeners on `.menu-overlay`. -/
  overlayListeners : Nat
  /-- click listeners on `.menu-links`. -/
  linksContainerListeners : Nat
  /-- click listeners on a representative `.menu-links a` link. -/
  linkListeners : Nat
  /-- keydown listeners on `document`. -/
  keydownListeners : Nat
  /-- `window.portfolioApp` is set. -/
  portfolioAppSet : Bool
  /-- `window.luxuryCursor` is set. -/
  luxuryCursorSet : Bool
  /-- `window.scrollAnimationManager` is set. -/
  scrollManagerSet : Bool
  /-- how many times `new PortfolioApp()` ran. -/
  portfolioAppConstructions : Nat
  /-- how many times `new LuxuryCursor()` ran. -/
  luxuryCursorConstructions : Nat
  /-- how many times `new ScrollAnimationManager()` ran. -/
  scrollManagerConstructions : Nat
  deriving DecidableEq, Repr

/-- `setupThemeButton()` (script.js lines 309-323): clones the theme button,
which drops every listener attached to the old node, swaps it in, and attaches
one click listener to the fresh node. -/
def setupThemeButton (a : AppState) : AppState :=
  { a with themeButtonListeners := 0 + 1 }

/-- `setupMenuButton()` (script.js lines 326-368): unconditionally attaches one
more click listener to the hamburger icon, one to the overlay, one keydown
listener to the document, and one click listener to every menu link. -/
def setupMenuButton (a : AppState) : AppState :=
  { a with hamburgerListeners := a.hamburgerListeners + 1,
           overlayListeners := a.overlayListeners + 1,
           keydownListeners := a.keydownListeners + 1,
           linkListeners := a.linkListeners + 1 }

/-- `PortfolioApp.init()` as called from `initializeApp` (script.js lines
172-175 and 180-204): runs `ThemeManager.init` and attaches listeners to the
theme button, hamburger icon, overlay and links container. -/
def portfolioAppInit (a : AppState) : AppState :=
  { a with theme := themeInit a.theme,
           themeButtonListeners := a.themeButtonListeners + 1,
           hamburgerListeners := a.hamburgerListeners + 1,
           overlayListeners := a.overlayListeners + 1,
           linksContainerListeners := a.linksContainerListeners + 1 }

/-- `initializeApp()` (script.js lines 527-548): always re-runs
`initializeTheme`, `setupThemeButton` and `setupMenuButton`; constructs and
initializes `PortfolioApp`, `LuxuryCursor` and `ScrollAnimationManager` only
when their `window.*` guard flags are unset. -/
def initializeApp (a : AppState) : AppState :=
  let a1 := { a with theme := initializeTheme a.theme }
  let a2 := setupMenuButton (setupThemeButton a1)
  let a3 :=
    if !a2.portfolioAppSet then
      portfolioAppInit
        { a2 with portfolioAppSet := true,
                  portfolioAppConstructions := a2.portfolioAppConstructions + 1 }
    else a2
  let a4 :=
    if !a3.luxuryCursorSet then
      { a3 with luxuryCursorSet := true,
                luxuryCursorConstructions := a3.luxuryCursorConstructions + 1 }
    else a3
  if !a4.scrollManagerSet then
    { a4 with scrollManagerSet := true,
              scrollManagerConstructions := a4.scrollManagerConstructions + 1 }
  else a4

/-- Fresh page-load application state: no listeners, no guards set. -/
def freshApp (t : ThemeDom) : AppState :=
  { theme := t, themeButtonListeners := 0, hamburgerListeners := 0,
    overlayListeners := 0, linksContainerListeners := 0, linkListeners := 0,
    keydownListeners := 0, portfolioAppSet := false, luxuryCursorSet := false,
    scrollManagerSet := false, portfolioAppConstructions := 0,
    luxuryCursorConstructions := 0, scrollManagerConstructions := 0 }

theorem updateIcon_dataTheme (th : String) (s : ThemeDom) :
    (updateIcon th s).dataTheme = s.dataTheme := by
  unfold updateIcon
  split <;> rfl

theorem updateIcon_stored (th : String) (s : ThemeDom) :
    (updateIcon th s).stored = s.stored := by
  unfold updateIcon
  split <;> rfl

theorem themeToggle_fields (s : ThemeDom) :
    (themeToggle s).dataTheme
        = some (if jsOrElse s.dataTheme "light" = "dark" then "light" else "dark")
    ∧ (themeToggle s).stored = (themeToggle s).dataTheme := by
  unfold themeToggle
  refine ⟨by rw [updateIcon_dataTheme], by rw [updateIcon_stored, updateIcon_dataTheme]⟩

theorem theme_iter_spec (b : Bool) (t : String) :
    ∀ n : ℕ, (themeToggle^[n] (themeStart b t)).dataTheme
        = some (if n % 2 = 0 then "light" else "dark") := by
  intro n
  induction n with
  | zero => rfl
  | succ k ih =>
      rw [Function.iterate_succ_apply']
      rcases Nat.mod_two_eq_zero_or_one k with h | h
      · have h2 : (k + 1) % 2 = 1 := by omega
        rw [(themeToggle_fields _).1, ih]
        simp [jsOrElse, h, h2]
      · have h2 : (k + 1) % 2 = 0 := by omega
        rw [(themeToggle_fields _).1, ih]
        simp [jsOrElse, h, h2]

/-- C1: starting from the default state (applied attribute `light`, nothing
persisted), after `n` toggles the displayed theme is `light` for even `n` and
`dark` for odd `n`, and immediately after any toggle the persisted value
equals the displayed attribute; each toggle complements the currently applied
attribute, applies it and persists it (the complement/apply/persist step is
the definition `themeToggle`, embedded from script.js lines 34-41). -/
theorem theme_toggle_parity_persistence (b : Bool) (t : String) (n : ℕ) :
    ((themeToggle^[n] (themeStart b t)).dataTheme
        = some (if n % 2 = 0 then "light" else "dark"))
    ∧ (themeToggle^[n + 1] (themeStart b t)).stored
        = (themeToggle^[n + 1] (themeStart b t)).dataTheme := by
  refine ⟨theme_iter_spec b t n, ?_⟩
  rw [Function.iterate_succ_apply']
  exact (themeToggle_fields _).2

/-- C3 (counterexample): a persisted value that is neither `light` nor `dark`
is applied verbatim by `init()` rather than being replaced by the default
`light`, contradicting the claim's "absent or any string other than `light`
or `dark` yields `light`". -/
theorem theme_init_unrecognized_counterexample :
    (themeInit { dataTheme := none, stored := some "solarized",
                 iconPresent := true, iconText := "" }).dataTheme = some "solarized"
    ∧ some "solarized" ≠ some "light" := by
  exact ⟨rfl, by decide⟩

/-- C3 (amended): `init()` applies the default `light` exactly when the
persisted value is absent or the empty string; any other persisted string
(recognized or not) is applied verbatim; persisted `dark` yields displayed
`dark` with icon `☀️`, and an absent value yields `light` with icon `🌙`. -/
theorem theme_init_behaviour :
    (∀ (b : Bool) (d : Option String) (t : String),
      (themeInit { dataTheme := d, stored := none,
                   iconPresent := b, iconText := t }).dataTheme = some "light")
    ∧ (∀ (d : Option String) (t : String),
      (themeInit { dataTheme := d, stored := none,
                   iconPresent := true, iconText := t }).iconText = moonGlyph)
    ∧ (∀ (d : Option String) (t : String),
      (themeInit { dataTheme := d, stored := some "dark",
                   iconPresent := true, iconText := t }).dataTheme = some "dark"
      ∧ (themeInit { dataTheme := d, stored := some "dark",
                     iconPresent := true, iconText := t }).iconText = sunGlyph)
    ∧ (∀ (s : ThemeDom) (v : String), s.stored = some v → v ≠ "" →
      (themeInit s).dataTheme = some v)
    ∧ (∀ s : ThemeDom, s.stored = some "" → (themeInit s).dataTheme = some "light") := by
  refine ⟨?_, ?_, ?_, ?_, ?_⟩
  · intro b d t
    simp [themeInit, jsOrElse, updateIcon_dataTheme]
  · intro d t
    simp [themeInit, jsOrElse, updateIcon, moonGlyph]
  · intro d t
    constructor
    · simp [themeInit, jsOrElse, updateIcon_dataTheme]
    · simp [themeInit, jsOrElse, updateIcon, sunGlyph]
  · intro s v hv hne
    simp [themeInit, jsOrElse, hv, hne, updateIcon_dataTheme]
  · intro s hv
    simp [themeInit, jsOrElse, hv, updateIcon_dataTheme]

/-- C3 witness: the amended theorem applied at a concrete state with persisted
value `dark`. -/
theorem theme_init_behaviour_witness :
    (themeInit { dataTheme := none, stored := some "dark",
                 iconPresent := false, iconText := "" }).dataTheme = some "dark" :=
  theme_init_behaviour.2.2.2.1
    { dataTheme := none, stored := some "dark", iconPresent := false, iconText := "" }
    "dark" rfl (by decide)
theorem menuOpen_top (s : MenuDom) (hov : s.overlayPresent = true) (hic : s.iconPresent = true) :
    (menuOpen s).top = topFor s.scrollY := by
  simp [menuOpen, setBodyPosition, hov, hic]

theorem menuClose_scrollY_of_topFor (s : MenuDom) (n : Nat) (h : s.top = topFor n) :
    (menuClose s).scrollY = n := by
  simp only [menuClose, h]
  rw [if_neg (topFor_ne_empty n)]
  simpa [scrollTo] using scroll_restore n

theorem menuClose_top (s : MenuDom) : (menuClose s).top = "" := by
  simp only [menuClose, setBodyPosition, scrollTo]
  split <;> rfl

theorem handleMenuLink_top (s : MenuDom) : (handleMenuLink s).top = "" := by
  simp only [handleMenuLink, setBodyPosition, scrollTo]
  split <;> rfl

theorem handleMenuLink_scrollY_of_topFor (s : MenuDom) (n : Nat) (h : s.top = topFor n) :
    (handleMenuLink s).scrollY = n := by
  simp only [handleMenuLink, h]
  rw [if_neg (topFor_ne_empty n)]
  simpa [scrollTo] using scroll_restore n

theorem menuClose_scrollY_of_empty (s : MenuDom) (h : s.top = "") :
    (menuClose s).scrollY = s.scrollY := by
  simp [menuClose, h, setBodyPosition]

theorem toggleMenu_open_top (s : MenuDom) (hov : s.overlayPresent = true)
    (hic : s.iconPresent = true) (hclosed : s.overlayOpen = false) :
    (toggleMenu s).top = topFor s.scrollY := by
  simp [toggleMenu, setBodyPosition, hov, hic, hclosed]

/-- Concrete menu state used by the counterexamples: both elements present,
menu closed, no recorded offset, window scrolled to 5px. -/
def menuClosedEx : MenuDom :=
  { overlayPresent := true, iconPresent := true, overlayOpen := false,
    iconOpen := false, bodyMenuOpen := false, overflow := "", position := "",
    width := "", height := "", top := "", scrollY := 5 }

/-- C2 (counterexample): opening via `MenuManager.open()` at scroll offset 5
and closing via the standalone `window.toggleMenu` is a close path wired to
user events (hamburger click, Escape, overlay backdrop), yet it leaves the
window at scroll offset 0, not 5 -- `toggleMenu`'s close branch never reads
the recorded offset and never scrolls. -/
theorem menu_roundtrip_counterexample :
    (toggleMenu (menuOpen menuClosedEx)).overlayOpen = false
    ∧ (toggleMenu (menuOpen menuClosedEx)).scrollY ≠ menuClosedEx.scrollY := by
  decide

/-- C2 (amended): opening the menu from a closed state at any offset `S` and
closing it through `MenuManager.close()` (directly, or as the second leg of
`MenuManager.toggle()`), or through `window.handleMenuLink`, restores the
scroll position to exactly `S`, whichever of the two open paths ran; the
round-trip law fails only for the standalone `window.toggleMenu` close
branch, which does not restore the offset. -/
theorem menu_roundtrip_close_restores (s : MenuDom) (hov : s.overlayPresent = true)
    (hic : s.iconPresent = true) (hclosed : s.overlayOpen = false) :
    (menuClose (menuOpen s)).scrollY = s.scrollY
    ∧ (menuClose (toggleMenu s)).scrollY = s.scrollY
    ∧ (handleMenuLink (menuOpen s)).scrollY = s.scrollY := by
  refine ⟨?_, ?_, ?_⟩
  · exact menuClose_scrollY_of_topFor _ _ (menuOpen_top s hov hic)
  · exact menuClose_scrollY_of_topFor _ _ (toggleMenu_open_top s hov hic hclosed)
  · exact handleMenuLink_scrollY_of_topFor _ _ (menuOpen_top s hov hic)

/-- C2 witness: the amended round-trip law at the concrete closed state with
offset 5. -/
theorem menu_roundtrip_close_restores_witness :
    (menuClose (menuOpen menuClosedEx)).scrollY = menuClosedEx.scrollY :=
  (menu_roundtrip_close_restores menuClosedEx rfl rfl rfl).1

/-- C4 (counterexample): the closed state produced by `window.toggleMenu`'s
close branch still carries the recorded offset in `body.style.top`, so a
further `close()` call on this already-closed menu passes the non-emptiness
guard and scrolls the window (from 0 back to 5), contradicting the claim for
that reachable closed state. -/
theorem close_when_closed_counterexample :
    (toggleMenu (menuOpen menuClosedEx)).overlayOpen = false
    ∧ (menuClose (toggleMenu (menuOpen menuClosedEx))).scrollY
        ≠ (toggleMenu (menuOpen menuClosedEx)).scrollY := by
  decide

/-- C4 (amended): `close()` never throws (it is a total state transformer);
on any state whose recorded offset is empty it leaves the scroll position
unchanged, and the offset-clearing close paths (`MenuManager.close` and
`window.handleMenuLink`) always leave an empty recorded offset, so a repeated
`close()` after either of them never scrolls.  The guard fails to protect
only the closed states produced by `window.toggleMenu`'s close branch, which
leaves the offset recorded. -/
theorem close_when_closed_safe :
    (∀ s : MenuDom, s.top = "" → (menuClose s).scrollY = s.scrollY)
    ∧ (∀ s : MenuDom, (menuClose s).top = "" ∧ (handleMenuLink s).top = "")
    ∧ (∀ s : MenuDom, (menuClose (menuClose s)).scrollY = (menuClose s).scrollY) := by
  refine ⟨fun s h => menuClose_scrollY_of_empty s h,
          fun s => ⟨menuClose_top s, handleMenuLink_top s⟩,
          fun s => menuClose_scrollY_of_empty _ (menuClose_top s)⟩

/-- C4 witness: a repeated close on the concrete closed state does not move
the scroll position. -/
theorem close_when_closed_safe_witness :
    (menuClose menuClosedEx).scrollY = menuClosedEx.scrollY :=
  close_when_closed_safe.1 menuClosedEx rfl

/-- C5 (counterexample): on an open menu the class-based close and the
standalone `window.toggleMenu` disagree on both the resulting `body.style.top`
and the resulting scroll position. -/
theorem managers_globals_counterexample :
    (menuToggle (menuOpen menuClosedEx)).top ≠ (toggleMenu (menuOpen menuClosedEx)).top
    ∧ (menuToggle (menuOpen menuClosedEx)).scrollY
        ≠ (toggleMenu (menuOpen menuClosedEx)).scrollY := by
  decide

/-- C5 (amended): the theme pair really is redundant -- `ThemeManager.toggle`
and `window.toggleTheme` (and the two startup initializers) coincide on every
state -- and the menu pair coincides whenever the menu is not open (including
all missing-element states); the two implementations differ exactly on the
close path, where `window.toggleMenu` neither restores the scroll position
nor clears the recorded offset. -/
theorem managers_globals_equiv :
    (∀ s : ThemeDom, themeToggle s = toggleTheme s)
    ∧ (∀ s : ThemeDom, themeInit s = initializeTheme s)
    ∧ (∀ s : MenuDom, s.overlayOpen = false → menuToggle s = toggleMenu s) := by
  refine ⟨fun s => rfl, fun s => rfl, fun s hclosed => ?_⟩
  cases hov : s.overlayPresent <;> cases hic : s.iconPresent <;>
    simp [menuToggle, toggleMenu, menuOpen, hov, hic, hclosed]

/-- C5 witness: the equivalence applied on the theme side at a concrete state
and on the menu side at the concrete closed state. -/
theorem managers_globals_equiv_witness :
    menuToggle menuClosedEx = toggleMenu menuClosedEx :=
  managers_globals_equiv.2.2 menuClosedEx rfl
theorem toggleMenu_present (s : MenuDom) :
    (toggleMenu s).overlayPresent = s.overlayPresent
    ∧ (toggleMenu s).iconPresent = s.iconPresent := by
  unfold toggleMenu setBodyPosition
  split <;> [skip; split] <;> exact ⟨rfl, rfl⟩

theorem menuClose_overlayOpen (s : MenuDom) (hov : s.overlayPresent = true) :
    (menuClose s).overlayOpen = false := by
  simp only [menuClose, setBodyPosition, scrollTo]
  split <;> simp [hov]

theorem handleMenuLink_overlayOpen (s : MenuDom) (hov : s.overlayPresent = true) :
    (handleMenuLink s).overlayOpen = false := by
  simp only [handleMenuLink, setBodyPosition, scrollTo]
  split <;> simp [hov]

/-- C6: for a click targeted inside the menu-links container, propagation
stops at the container, so neither of the overlay-registered backdrop
handlers runs (the run counter stays 0) and the net effect is exactly the
link's own handler, which closes the menu and leaves default navigation
unprevented; a click targeted at the overlay element itself does run the
backdrop handlers and closes the menu. -/
theorem menu_click_containment (s : MenuDom) (hov : s.overlayPresent = true)
    ( _hic : s.iconPresent = true) ( _hopen : s.overlayOpen = true) :
    ((dispatchClick ClickTarget.menuLink s).overlayHandlerRuns = 0
      ∧ (dispatchClick ClickTarget.menuLink s).dom = handleMenuLink s
      ∧ (dispatchClick ClickTarget.menuLink s).dom.overlayOpen = false
      ∧ (dispatchClick ClickTarget.menuLink s).prevented = false)
    ∧ ((dispatchClick ClickTarget.overlay s).dom.overlayOpen = false
      ∧ 0 < (dispatchClick ClickTarget.overlay s).overlayHandlerRuns) := by
  refine ⟨⟨?_, ?_, ?_, ?_⟩, ?_, ?_⟩
  · simp [dispatchClick, propagationPath, runNodeHandlers]
  · simp [dispatchClick, propagationPath, runNodeHandlers]
  · simp [dispatchClick, propagationPath, runNodeHandlers,
      handleMenuLink_overlayOpen s hov]
  · simp [dispatchClick, propagationPath, runNodeHandlers]
  · simp [dispatchClick, propagationPath, runNodeHandlers]
    exact menuClose_overlayOpen _ (by rw [(toggleMenu_present s).1, hov])
  · simp [dispatchClick, propagationPath, runNodeHandlers]

/-- C6 witness: containment at the concrete open menu state. -/
theorem menu_click_containment_witness :
    (dispatchClick ClickTarget.menuLink (menuOpen menuClosedEx)).overlayHandlerRuns = 0 :=
  (menu_click_containment (menuOpen menuClosedEx) rfl rfl rfl).1.1

theorem lerp_dist (p t l : ℚ) (h1 : l ≤ 1) :
    |lerpStep p t l - t| = (1 - l) * |p - t| := by
  have h : lerpStep p t l - t = (p - t) * (1 - l) := by unfold lerpStep; ring
  rw [h, abs_mul, abs_of_nonneg (by linarith : (0:ℚ) ≤ 1 - l), mul_comm]

theorem lerp_iter_dist (u : ℕ → ℚ) (m l : ℚ) (h1 : l ≤ 1)
    (hstep : ∀ n, u (n + 1) = lerpStep (u n) m l) :
    ∀ n, |u n - m| = (1 - l) ^ n * |u 0 - m|
  | 0 => by simp
  | n + 1 => by
      rw [hstep n, lerp_dist _ _ _ h1, lerp_iter_dist u m l h1 hstep n, pow_succ]
      ring

theorem geom_eventually_lt (r d ε : ℚ) (h0 : 0 ≤ r) (h1 : r < 1) (hd : 0 ≤ d)
    (hε : 0 < ε) : ∃ N, ∀ n, N ≤ n → r ^ n * d < ε := by
  rcases eq_or_lt_of_le hd with hd0 | hdpos
  · exact ⟨0, fun n _ => by rw [← hd0]; simpa using hε⟩
  · obtain ⟨N, hN⟩ := exists_pow_lt_of_lt_one (div_pos hε hdpos) h1
    refine ⟨N, fun n hn => ?_⟩
    have hmono : r ^ n ≤ r ^ N := pow_le_pow_of_le_one h0 (le_of_lt h1) hn
    have h2 : r ^ n * d ≤ r ^ N * d := by nlinarith
    have h3 : r ^ N * d < (ε / d) * d := by nlinarith
    have h4 : (ε / d) * d = ε := div_mul_cancel₀ ε (ne_of_gt hdpos)
    linarith

theorem animate_mouse (s : CursorState) :
    ∀ n, (animate^[n] s).mouseX = s.mouseX ∧ (animate^[n] s).mouseY = s.mouseY
  | 0 => ⟨rfl, rfl⟩
  | n + 1 => by
      rw [Function.iterate_succ_apply']
      exact ⟨(animate_mouse s n).1, (animate_mouse s n).2⟩

theorem animate_cursorX_step (x : CursorState) :
    (animate x).cursorX = lerpStep x.cursorX x.mouseX cursorLerp := rfl

theorem animate_cursorY_step (x : CursorState) :
    (animate x).cursorY = lerpStep x.cursorY x.mouseY cursorLerp := rfl

theorem animate_dotX_step (x : CursorState) :
    (animate x).dotX = lerpStep x.dotX x.mouseX dotLerp := rfl

theorem animate_dotY_step (x : CursorState) :
    (animate x).dotY = lerpStep x.dotY x.mouseY dotLerp := rfl

theorem animate_iter_cursorX (s : CursorState) (n : ℕ) :
    |(animate^[n] s).cursorX - s.mouseX| = (1 - cursorLerp) ^ n * |s.cursorX - s.mouseX| := by
  refine lerp_iter_dist (fun k => (animate^[k] s).cursorX) s.mouseX cursorLerp
    (by norm_num [cursorLerp]) (fun k => ?_) n
  dsimp only
  rw [Function.iterate_succ_apply']
  rw [animate_cursorX_step, (animate_mouse s k).1]

theorem animate_iter_cursorY (s : CursorState) (n : ℕ) :
    |(animate^[n] s).cursorY - s.mouseY| = (1 - cursorLerp) ^ n * |s.cursorY - s.mouseY| := by
  refine lerp_iter_dist (fun k => (animate^[k] s).cursorY) s.mouseY cursorLerp
    (by norm_num [cursorLerp]) (fun k => ?_) n
  dsimp only
  rw [Function.iterate_succ_apply']
  rw [animate_cursorY_step, (animate_mouse s k).2]

theorem animate_iter_dotX (s : CursorState) (n : ℕ) :
    |(animate^[n] s).dotX - s.mouseX| = (1 - dotLerp) ^ n * |s.dotX - s.mouseX| := by
  refine lerp_iter_dist (fun k => (animate^[k] s).dotX) s.mouseX dotLerp
    (by norm_num [dotLerp]) (fun k => ?_) n
  dsimp only
  rw [Function.iterate_succ_apply']
  rw [animate_dotX_step, (animate_mouse s k).1]

theorem animate_iter_dotY (s : CursorState) (n : ℕ) :
    |(animate^[n] s).dotY - s.mouseY| = (1 - dotLerp) ^ n * |s.dotY - s.mouseY| := by
  refine lerp_iter_dist (fun k => (animate^[k] s).dotY) s.mouseY dotLerp
    (by norm_num [dotLerp]) (fun k => ?_) n
  dsimp only
  rw [Function.iterate_succ_apply']
  rw [animate_dotY_step, (animate_mouse s k).2]

theorem lerp_no_overshoot (p t l : ℚ) (h0 : 0 < l) (h1 : l < 1) :
    |lerpStep p t l - t| ≤ |p - t| ∧ 0 ≤ (t - lerpStep p t l) * (t - p) := by
  constructor
  · rw [lerp_dist p t l (le_of_lt h1)]
    have h2 : (0:ℚ) ≤ |p - t| := abs_nonneg _
    nlinarith
  · have h : (t - lerpStep p t l) * (t - p) = (1 - l) * (t - p) ^ 2 := by
      unfold lerpStep; ring
    rw [h]
    have h2 : (0:ℚ) ≤ (t - p) ^ 2 := sq_nonneg _
    nlinarith

/-- C7: with a stationary pointer, one `animate()` tick multiplies the
distance of the outer ring to the pointer by `1 - 0.12` and the distance of
the inner dot by `1 - 0.35` (per axis); the distances are non-increasing from
tick to tick; all four follower coordinates converge to the pointer (for any
positive tolerance they eventually stay within it); and for every easing
factor in `(0,1)` an interpolation step never moves past the target (the gap
keeps its sign and never grows). -/
theorem cursor_easing_convergence (s : CursorState) :
    (|(animate s).cursorX - s.mouseX| = (1 - cursorLerp) * |s.cursorX - s.mouseX|
      ∧ |(animate s).cursorY - s.mouseY| = (1 - cursorLerp) * |s.cursorY - s.mouseY|
      ∧ |(animate s).dotX - s.mouseX| = (1 - dotLerp) * |s.dotX - s.mouseX|
      ∧ |(animate s).dotY - s.mouseY| = (1 - dotLerp) * |s.dotY - s.mouseY|)
    ∧ (∀ n : ℕ,
        |(animate^[n + 1] s).cursorX - s.mouseX| ≤ |(animate^[n] s).cursorX - s.mouseX|
      ∧ |(animate^[n + 1] s).cursorY - s.mouseY| ≤ |(animate^[n] s).cursorY - s.mouseY|
      ∧ |(animate^[n + 1] s).dotX - s.mouseX| ≤ |(animate^[n] s).dotX - s.mouseX|
      ∧ |(animate^[n + 1] s).dotY - s.mouseY| ≤ |(animate^[n] s).dotY - s.mouseY|)
    ∧ (∀ ε : ℚ, 0 < ε → ∃ N, ∀ n, N ≤ n →
        |(animate^[n] s).cursorX - s.mouseX| < ε
      ∧ |(animate^[n] s).cursorY - s.mouseY| < ε
      ∧ |(animate^[n] s).dotX - s.mouseX| < ε
      ∧ |(animate^[n] s).dotY - s.mouseY| < ε)
    ∧ (∀ l p t : ℚ, 0 < l → l < 1 →
        |lerpStep p t l - t| ≤ |p - t| ∧ 0 ≤ (t - lerpStep p t l) * (t - p)) := by
  have hc1 : (1 - cursorLerp) ≤ 1 := by norm_num [cursorLerp]
  have hc0 : (0:ℚ) ≤ 1 - cursorLerp := by norm_num [cursorLerp]
  have hd1 : (1 - dotLerp) ≤ 1 := by norm_num [dotLerp]
  have hd0 : (0:ℚ) ≤ 1 - dotLerp := by norm_num [dotLerp]
  refine ⟨⟨?_, ?_, ?_, ?_⟩, ?_, ?_, fun l p t h0 h1 => lerp_no_overshoot p t l h0 h1⟩
  · simpa using animate_iter_cursorX s 1
  · simpa using animate_iter_cursorY s 1
  · simpa using animate_iter_dotX s 1
  · simpa using animate_iter_dotY s 1
  · intro n
    refine ⟨?_, ?_, ?_, ?_⟩
    · rw [animate_iter_cursorX s (n + 1), animate_iter_cursorX s n, pow_succ]
      exact mul_le_mul_of_nonneg_right
        (mul_le_of_le_one_right (pow_nonneg hc0 n) hc1) (abs_nonneg _)
    · rw [animate_iter_cursorY s (n + 1), animate_iter_cursorY s n, pow_succ]
      exact mul_le_mul_of_nonneg_right
        (mul_le_of_le_one_right (pow_nonneg hc0 n) hc1) (abs_nonneg _)
    · rw [animate_iter_dotX s (n + 1), animate_iter_dotX s n, pow_succ]
      exact mul_le_mul_of_nonneg_right
        (mul_le_of_le_one_right (pow_nonneg hd0 n) hd1) (abs_nonneg _)
    · rw [animate_iter_dotY s (n + 1), animate_iter_dotY s n, pow_succ]
      exact mul_le_mul_of_nonneg_right
        (mul_le_of_le_one_right (pow_nonneg hd0 n) hd1) (abs_nonneg _)
  · intro ε hε
    obtain ⟨N1, hN1⟩ := geom_eventually_lt (1 - cursorLerp) |s.cursorX - s.mouseX| ε
      hc0 (by norm_num [cursorLerp]) (abs_nonneg _) hε
    obtain ⟨N2, hN2⟩ := geom_eventually_lt (1 - cursorLerp) |s.cursorY - s.mouseY| ε
      hc0 (by norm_num [cursorLerp]) (abs_nonneg _) hε
    obtain ⟨N3, hN3⟩ := geom_eventually_lt (1 - dotLerp) |s.dotX - s.mouseX| ε
      hd0 (by norm_num [dotLerp]) (abs_nonneg _) hε
    obtain ⟨N4, hN4⟩ := geom_eventually_lt (1 - dotLerp) |s.dotY - s.mouseY| ε
      hd0 (by norm_num [dotLerp]) (abs_nonneg _) hε
    refine ⟨max (max N1 N2) (max N3 N4), fun n hn => ?_⟩
    have h1 : N1 ≤ n := le_trans (le_trans (le_max_left _ _) (le_max_left _ _)) hn
    have h2 : N2 ≤ n := le_trans (le_trans (le_max_right _ _) (le_max_left _ _)) hn
    have h3 : N3 ≤ n := le_trans (le_trans (le_max_left _ _) (le_max_right _ _)) hn
    have h4 : N4 ≤ n := le_trans (le_trans (le_max_right _ _) (le_max_right _ _)) hn
    exact ⟨by rw [animate_iter_cursorX s n]; exact hN1 n h1,
           by rw [animate_iter_cursorY s n]; exact hN2 n h2,
           by rw [animate_iter_dotX s n]; exact hN3 n h3,
           by rw [animate_iter_dotY s n]; exact hN4 n h4⟩

/-- Concrete cursor state for the C7 witness: pointer at the origin,
followers at x = 100 and x = 50. -/
def cursorEx : CursorState :=
  { mouseX := 0, mouseY := 0, cursorX := 100, cursorY := 0, dotX := 50, dotY := 0 }

/-- C7 witness: the eventual-closeness bound of the convergence theorem,
instantiated at tolerance 1 on the concrete cursor state. -/
theorem cursor_easing_convergence_witness :
    (0:ℚ) < 1
    ∧ ∃ N, ∀ n, N ≤ n →
        |(animate^[n] cursorEx).cursorX - cursorEx.mouseX| < 1
      ∧ |(animate^[n] cursorEx).cursorY - cursorEx.mouseY| < 1
      ∧ |(animate^[n] cursorEx).dotX - cursorEx.mouseX| < 1
      ∧ |(animate^[n] cursorEx).dotY - cursorEx.mouseY| < 1 :=
  ⟨by decide, (cursor_easing_convergence cursorEx).2.2.1 1 (by decide)⟩

theorem mem_addClass {x : Nat} {l : List Nat} (e : Nat) (h : x ∈ l) :
    x ∈ addClass e l := by
  unfold addClass
  split
  · exact h
  · exact List.mem_cons_of_mem e h

theorem mem_addClass_self (e : Nat) (l : List Nat) : e ∈ addClass e l := by
  unfold addClass
  split
  · assumption
  · exact List.mem_cons_self e l

theorem revealStep_mono (s : RevealSt) (op : RevealOp) (x : Nat)
    (h : x ∈ s.animated) : x ∈ (revealStep s op).animated := by
  cases op with
  | callbackEntry e b =>
      cases b with
      | true => exact mem_addClass e h
      | false => exact h
  | heroTimeout e => exact mem_addClass e h

theorem revealRun_mono (ops : List RevealOp) :
    ∀ (s : RevealSt) (x : Nat), x ∈ s.animated → x ∈ (revealRun s ops).animated := by
  induction ops with
  | nil => exact fun s x h => h
  | cons op rest ih =>
      intro s x h
      exact ih (revealStep s op) x (revealStep_mono s op x h)

/-- C8: once an element intersects, the observer callback marks it animated
and removes it from observation, and no subsequent event of the system (any
sequence of further callback entries -- intersecting or not, i.e. including
the element leaving the viewport -- and hero timeouts) ever removes the
animated marker. -/
theorem reveal_one_shot_monotone :
    (∀ (s : RevealSt) (e : Nat),
        e ∈ (revealStep s (RevealOp.callbackEntry e true)).animated
      ∧ e ∉ (revealStep s (RevealOp.callbackEntry e true)).observed)
    ∧ (∀ (s : RevealSt) (ops : List RevealOp) (x : Nat),
        x ∈ s.animated → x ∈ (revealRun s ops).animated) := by
  constructor
  · intro s e
    constructor
    · exact mem_addClass_self e s.animated
    · show e ∉ s.observed.filter (fun x => x ≠ e)
      simp [List.mem_filter]
  · exact fun s ops x h => revealRun_mono ops s x h

/-- C8 witness: an element marked animated by an intersection stays animated
across a later non-intersecting entry for it (leaving the viewport) and an
unrelated hero timeout. -/
theorem reveal_one_shot_monotone_witness :
    7 ∈ (revealRun
          (revealStep { animated := [], observed := [7], observerCreated := true }
            (RevealOp.callbackEntry 7 true))
          [RevealOp.callbackEntry 7 false, RevealOp.heroTimeout 3]).animated :=
  reveal_one_shot_monotone.2
    (revealStep { animated := [], observed := [7], observerCreated := true }
      (RevealOp.callbackEntry 7 true))
    [RevealOp.callbackEntry 7 false, RevealOp.heroTimeout 3] 7
    (reveal_one_shot_monotone.1
      { animated := [], observed := [7], observerCreated := true } 7).1

theorem mem_foldl_addClass (l : List Nat) :
    ∀ (acc : List Nat) (e : Nat), e ∈ l ∨ e ∈ acc →
      e ∈ l.foldl (fun cls x => addClass x cls) acc := by
  induction l with
  | nil => intro acc e h; simpa using h.resolve_left (by simp)
  | cons a t ih =>
      intro acc e h
      rcases h with h | h
      · rcases List.mem_cons.mp h with rfl | h2
        · exact ih (addClass e acc) e (Or.inr (mem_addClass_self e acc))
        · exact ih (addClass a acc) e (Or.inl h2)
      · exact ih (addClass a acc) e (Or.inr (mem_addClass a h))

/-- C9: when intersection observation is unsupported, `init()` marks every
tagged element animated synchronously within the call, constructs no
observer, and observes nothing (the observed set is untouched). -/
theorem reveal_fallback_synchronous (tagged : List Nat) (s : RevealSt) :
    (∀ e ∈ tagged, e ∈ (scrollAnimInit false tagged s).animated)
    ∧ (scrollAnimInit false tagged s).observerCreated = s.observerCreated
    ∧ (scrollAnimInit false tagged s).observed = s.observed := by
  refine ⟨?_, rfl, rfl⟩
  intro e he
  show e ∈ tagged.foldl (fun cls x => addClass x cls) s.animated
  exact mem_foldl_addClass tagged s.animated e (Or.inl he)

/-- C9 witness: the fallback at a concrete tagged list. -/
theorem reveal_fallback_synchronous_witness :
    4 ∈ (scrollAnimInit false [2, 4, 6]
          { animated := [], observed := [], observerCreated := false }).animated :=
  (reveal_fallback_synchronous [2, 4, 6]
    { animated := [], observed := [], observerCreated := false }).1 4 (by decide)

theorem initializeApp_flags (a : AppState) :
    (initializeApp a).portfolioAppSet = true
    ∧ (initializeApp a).luxuryCursorSet = true
    ∧ (initializeApp a).scrollManagerSet = true := by
  unfold initializeApp
  dsimp only [setupThemeButton, setupMenuButton, portfolioAppInit]
  split_ifs <;> simp_all

theorem initializeApp_of_flags (a : AppState) (h1 : a.portfolioAppSet = true)
    (h2 : a.luxuryCursorSet = true) (h3 : a.scrollManagerSet = true) :
    initializeApp a
      = setupMenuButton (setupThemeButton { a with theme := initializeTheme a.theme }) := by
  unfold initializeApp
  dsimp only [setupThemeButton, setupMenuButton]
  simp [h1, h2, h3]

/-- C10 (counterexample): running `initializeApp` twice from a fresh page
state does not leave the application state identical to the state after the
first run -- the second run registers a duplicate click listener on the
hamburger icon (and a duplicate keydown listener), because `setupMenuButton`
runs unconditionally on every invocation. -/
theorem initializeApp_twice_counterexample :
    initializeApp (initializeApp (freshApp (themeStart true "")))
        ≠ initializeApp (freshApp (themeStart true ""))
    ∧ (initializeApp (initializeApp (freshApp (themeStart true "")))).hamburgerListeners
        = (initializeApp (freshApp (themeStart true ""))).hamburgerListeners + 1 := by
  decide

/-- C10 (amended): the three manager constructions are guarded by the
`window.portfolioApp` / `window.luxuryCursor` / `window.scrollAnimationManager`
flags, so a second `initializeApp` constructs no new manager; but
`initializeTheme`, `setupThemeButton` and `setupMenuButton` run
unconditionally, so the second invocation re-registers the menu listeners
(one duplicate each on the hamburger icon, the overlay, the document keydown
hook and every menu link) and re-clones the theme button; the state is
therefore not identical after a second run. -/
theorem initializeApp_guarded_constructions (a : AppState) :
    ((initializeApp (initializeApp a)).portfolioAppConstructions
        = (initializeApp a).portfolioAppConstructions
      ∧ (initializeApp (initializeApp a)).luxuryCursorConstructions
        = (initializeApp a).luxuryCursorConstructions
      ∧ (initializeApp (initializeApp a)).scrollManagerConstructions
        = (initializeApp a).scrollManagerConstructions)
    ∧ ((initializeApp (initializeApp a)).hamburgerListeners
        = (initializeApp a).hamburgerListeners + 1
      ∧ (initializeApp (initializeApp a)).overlayListeners
        = (initializeApp a).overlayListeners + 1
      ∧ (initializeApp (initializeApp a)).keydownListeners
        = (initializeApp a).keydownListeners + 1
      ∧ (initializeApp (initializeApp a)).linkListeners
        = (initializeApp a).linkListeners + 1) := by
  obtain ⟨h1, h2, h3⟩ := initializeApp_flags a
  rw [initializeApp_of_flags (initializeApp a) h1 h2 h3]
  dsimp only [setupThemeButton, setupMenuButton]
  exact ⟨⟨rfl, rfl, rfl⟩, rfl, rfl, rfl, rfl⟩
